import Mathlib

/-!
Shallow embedding of the JSON-API request pipeline of the `web` package
(`src/api.go`: `API.apiPreHandle` and `API.apiPostHandle`) and proofs of the
specification claims about it.

Conventions of the embedding:
* `http.ResponseWriter` is modelled by `ResponseWriter`: a status that only the
  first `WriteHeader` call sets (Go's net/http ignores later calls), a header
  list mutated by `Header().Set`, cookies appended by `http.SetCookie`, and the
  body as the list of JSON-encoded values written by `json.NewEncoder(w).Encode`.
* Go `interface{}` identity values are modelled by `Option υ`: `none` is the
  nil interface (the helper `isUserdataNil` in the real code implements exactly
  this nil test, per the specification's explicit nil-check contract).
* Fallible hooks return `Option String` for the Go `error`.
* The structured logger is a list of `LogEntry` records appended in program
  order; elapsed time and the panic stack are opaque strings supplied by the
  environment, since real time is not modelled.
* Each pipeline stage appends a `Stage` tag to a trace when its code runs, so
  that ordering and short-circuiting of `apiPreHandle` become provable facts.
-/

/-- Go type `web.Error`: the uniform error object `{"Code": <int>, "Message": <string>}`. -/
structure Error where
  Code : Nat
  Message : String
deriving DecidableEq, Repr

/-- Alias so that a structure field itself named `Error` can refer to the type. -/
abbrev ErrorT := Error

/-- Go type `web.JSONResponse`: the response envelope `{"Data": ..., "Error": ...}`,
with `none` for an omitted field. `δ` is the handler's payload type. -/
structure JSONResponse (δ : Type) where
  Data : Option δ := none
  Error : Option ErrorT := none
deriving DecidableEq, Repr

/-- Modelled from the spec: `CommonErrors.ServerError`, the generic
"server error" payload used for contained handler faults, is declared outside
`src/`. The spec fixes only that it is a generic 500-class error object that
never carries fault detail. -/
def CommonErrorsServerError : Error := ⟨500, "Internal server error"⟩

/-- One `Set-Cookie` value (`http.Cookie`, fields beyond name/value unused here). -/
structure Cookie where
  Name : String
  Value : String
deriving DecidableEq, Repr

/-- A single JSON value written to the response body by `json.NewEncoder(w).Encode`. -/
inductive Chunk (δ : Type) where
  /-- an encoded bare `web.Error` value (the 401 rejection body) -/
  | errObj (e : Error)
  /-- an encoded `web.JSONResponse` envelope -/
  | envelope (r : JSONResponse δ)
deriving DecidableEq, Repr

/-- Go type `http.ResponseWriter` as observed by the client: status (set by the first
`WriteHeader` only), headers, cookies, and the body writes. -/
structure ResponseWriter (δ : Type) where
  status : Option Nat := none
  headers : List (String × String) := []
  cookies : List Cookie := []
  body : List (Chunk δ) := []
deriving DecidableEq, Repr

/-- The untouched writer a request starts with. -/
def ResponseWriter.empty {δ : Type} : ResponseWriter δ := {}

/-- Go call `Header().Set k v`: replace any value previously set for `k`. -/
def headerSet (hs : List (String × String)) (k v : String) : List (String × String) :=
  (k, v) :: hs.filter (fun p => ¬ (p.1 = k))

/-- Go call `Header.Get k`: Go returns the empty string when the header is absent. -/
def headerGet (hs : List (String × String)) (k : String) : String :=
  ((hs.find? (fun p => p.1 == k)).map (fun p => p.2)).getD ""

/-- Go call `w.Header().Set(k, v)` on the writer. -/
def ResponseWriter.setHeader {δ : Type} (w : ResponseWriter δ) (k v : String) :
    ResponseWriter δ :=
  { w with headers := headerSet w.headers k v }

/-- Go call `w.WriteHeader(code)`: only the first call takes effect (net/http ignores a
superfluous second call). -/
def ResponseWriter.writeHeader {δ : Type} (w : ResponseWriter δ) (code : Nat) :
    ResponseWriter δ :=
  match w.status with
  | some _ => w
  | none => { w with status := some code }

/-- Go call `json.NewEncoder(w).Encode(c)`: append one encoded value to the body. -/
def ResponseWriter.writeChunk {δ : Type} (w : ResponseWriter δ) (c : Chunk δ) :
    ResponseWriter δ :=
  { w with body := w.body ++ [c] }

/-- The status the client observes: writing a body without `WriteHeader`
implies 200. -/
def ResponseWriter.effectiveStatus {δ : Type} (w : ResponseWriter δ) : Nat :=
  w.status.getD 200

/-- The inbound `*http.Request` (the parts the pipeline reads). -/
structure HttpRequest where
  Method : String
  /-- the full URL as logged by `r.HTTP.URL` -/
  URL : String
  /-- the URL's path component, `r.HTTP.URL.Path` -/
  Path : String
  RemoteAddr : String
  Headers : List (String × String)
deriving DecidableEq, Repr

/-- Modelled from the spec: `RealRemoteAddr` is declared outside `src/`; the
spec only uses it as "the remote address" recorded in log records. -/
def RealRemoteAddr (r : HttpRequest) : String := r.RemoteAddr

/-- Go type `router.Request`: the raw request plus extracted path parameters. -/
structure RouterRequest where
  HTTP : HttpRequest
  Parameters : List (String × String)
deriving DecidableEq, Repr

/-- Go type `web.Request` as passed to an API handler: request, parameters and the
caller-context value (`UserData`, the nil interface modelled as `none`). -/
structure Request (υ : Type) where
  HTTP : HttpRequest
  Parameters : List (String × String)
  UserData : Option υ
deriving DecidableEq, Repr

/-- The handler's optional extra response data (`resp` in `apiPostHandle`):
headers and cookies to apply to the response. -/
structure Response where
  Headers : List (String × String)
  Cookies : List Cookie
deriving DecidableEq, Repr

/-- Outcome of one API handler invocation: a normal return of
`(data, resp, err)`, or a panic with some panic value. -/
inductive HandlerOutcome (δ : Type) where
  | returns (data : Option δ) (resp : Option Response) (err : Option Error)
  | panics (val : String)

/-- Go type `web.APIHandle`. -/
abbrev APIHandle (υ δ : Type) := Request υ → HandlerOutcome δ

/-- Go type `web.HandleOptions`: the per-route configuration read by the pipeline. -/
structure HandleOptions (υ δ : Type) where
  PreHandle : Option (ResponseWriter δ → HttpRequest → ResponseWriter δ × Option String) := none
  AuthenticateMethod : Option (HttpRequest → Option υ) := none
  UnauthorizedMethod : Option (ResponseWriter δ → HttpRequest → ResponseWriter δ) := none
  MaxBodyLength : Nat := 0
  DontLogRequests : Bool := false

/-- Modelled from the spec: `isUserdataNil` is declared outside `src/`; per the
spec's explicit nil-check contract it holds exactly of the absent (nil)
identity, which the embedding represents as `none`. -/
def isUserdataNil {υ : Type} (u : Option υ) : Bool := u.isNone

/-- Go call `strconv.ParseUint(s, 10, 64)` with the error discarded, as in
`apiPreHandle`: a string of decimal digits yields its value saturated at
`2^64 - 1` (Go returns the maximal value on range error); any other string is
a syntax error and Go returns 0. -/
def goParseUint64 (s : String) : Nat :=
  if 0 < s.data.length ∧ s.data.all (fun c => c.isDigit) then
    min (s.data.foldl (fun n c => n * 10 + (c.toNat - 48)) 0) (2 ^ 64 - 1)
  else 0

/-- One structured log record (level, message, key/value fields), mirroring the
`log.P…` calls in `api.go`. -/
structure LogEntry where
  level : String
  message : String
  fields : List (String × String)
deriving DecidableEq, Repr

/-- Per-request data not determined by the request itself: the rate limiter's
verdict, the configured request log level, and the opaque elapsed-time and
stack strings produced at run time. -/
structure Env where
  limited : Bool
  requestLogLevel : String
  elapsed : String
  stack : String

/-- The pipeline stages of `apiPreHandle`/`apiPostHandle`, in source order. -/
inductive Stage where
  | preHandle
  | rateLimit
  | bodySize
  | auth
  | handler
deriving DecidableEq, Repr

/-- Position of a stage in the fixed pipeline order. -/
def stageIdx : Stage → Nat
  | .preHandle => 0
  | .rateLimit => 1
  | .bodySize => 2
  | .auth => 3
  | .handler => 4

/-- The fixed order of the pipeline stages. -/
def stageOrder : List Stage := [.preHandle, .rateLimit, .bodySize, .auth, .handler]

/-- Result of running the pipeline on one request: the response writer, the
log records appended, the trace of stages whose code ran, which stage (if any)
terminated the call before the handler, and the `Request` value the handler was
invoked with (if it was). -/
structure PipelineResult (υ δ : Type) where
  writer : ResponseWriter δ
  log : List LogEntry
  trace : List Stage
  terminatedAt : Option Stage
  handlerCall : Option (Request υ)

/-- The access-log record of `apiPostHandle` (`log.PWrite(..., "API Request", ...)`). -/
def accessLogEntry (env : Env) (r : RouterRequest) : LogEntry :=
  { level := env.requestLogLevel
    message := "API Request"
    fields := [("remote_addr", RealRemoteAddr r.HTTP), ("method", r.HTTP.Method),
               ("url", r.HTTP.URL), ("elapsed", env.elapsed)] }

/-- The diagnostic record written when a handler panic is recovered. -/
def panicLogEntry (env : Env) (r : RouterRequest) (p : String) : LogEntry :=
  { level := "error"
    message := "Recovered from panic during API handle"
    fields := [("error", p), ("route", r.HTTP.Path), ("method", r.HTTP.Method),
               ("stack", env.stack)] }

/-- The record written when an oversized body is rejected. -/
def oversizeLogEntry (len max : Nat) : LogEntry :=
  { level := "error"
    message := "Rejecting API request with oversized body"
    fields := [("body_length", toString len), ("max_length", toString max)] }

/-- The record written when an authenticated endpoint rejects a request. -/
def unauthLogEntry (r : RouterRequest) : LogEntry :=
  { level := "warn"
    message := "Rejected request to authenticated API endpoint"
    fields := [("url", r.HTTP.URL), ("method", r.HTTP.Method),
               ("remote_addr", RealRemoteAddr r.HTTP)] }

/-- Modelled from the spec: `Server.isRateLimited` is declared outside `src/`.
The spec fixes its observable effect: a limited request is rejected with
status 429 and the uniform error envelope, and no later stage runs. -/
def rateLimitedWriter {δ : Type} (w : ResponseWriter δ) : ResponseWriter δ :=
  (w.writeHeader 429).writeChunk (.errObj ⟨429, "Too many requests"⟩)

/-- Go method `API.apiPostHandle` (src/api.go lines 116-178): set the JSON content type,
build the `web.Request`, invoke the handler under the panic-recovery boundary,
apply the handler's extra headers/cookies, set the status from the handler's
error (default 200), write the access log unless suppressed, and emit the
envelope. -/
def apiPostHandle {υ δ : Type} (env : Env) (endpointHandle : APIHandle υ δ)
    (userData : Option υ) (options : HandleOptions υ δ) (w : ResponseWriter δ)
    (r : RouterRequest) (log : List LogEntry) (trace : List Stage) :
    PipelineResult υ δ :=
  let w := w.setHeader "Content-Type" "application/json"
  let request : Request υ := { HTTP := r.HTTP, Parameters := r.Parameters, UserData := userData }
  let trace := trace ++ [Stage.handler]
  match endpointHandle request with
  | .panics p =>
      -- the deferred recover: log the diagnostic detail, answer 500 with the
      -- generic server-error envelope; nothing after the handler call runs
      { writer := ((w.writeHeader 500).writeChunk
          (.envelope { Data := none, Error := some CommonErrorsServerError }))
        log := log ++ [panicLogEntry env r p]
        trace := trace
        terminatedAt := none
        handlerCall := some request }
  | .returns data resp err =>
      let w := match resp with
        | some resp =>
            { (resp.Headers.foldl (fun w kv => w.setHeader kv.1 kv.2) w) with
              cookies := w.cookies ++ resp.Cookies }
        | none => w
      let (w, response) : ResponseWriter δ × JSONResponse δ := match err with
        | some e => (w.writeHeader e.Code, { Data := none, Error := some e })
        | none => (w, { Data := data, Error := none })
      let log := if options.DontLogRequests then log else log ++ [accessLogEntry env r]
      { writer := w.writeChunk (.envelope response)
        log := log
        trace := trace
        terminatedAt := none
        handlerCall := some request }

/-- The authentication stage of `apiPreHandle` (src/api.go lines 91-113). -/
def runAuth {υ δ : Type} (env : Env) (endpointHandle : APIHandle υ δ)
    (options : HandleOptions υ δ) (w : ResponseWriter δ) (r : RouterRequest)
    (log : List LogEntry) (trace : List Stage) : PipelineResult υ δ :=
  match options.AuthenticateMethod with
  | some authenticate =>
      let trace := trace ++ [Stage.auth]
      let userData := authenticate r.HTTP
      if isUserdataNil userData then
        match options.UnauthorizedMethod with
        | none =>
            { writer := (((w.setHeader "Content-Type" "application/json").writeHeader 401).writeChunk
                (.errObj ⟨401, "Unauthorized"⟩))
              log := log ++ [unauthLogEntry r]
              trace := trace
              terminatedAt := some .auth
              handlerCall := none }
        | some unauthorized =>
            { writer := unauthorized w r.HTTP
              log := log
              trace := trace
              terminatedAt := some .auth
              handlerCall := none }
      else
        apiPostHandle env endpointHandle userData options w r log trace
  | none => apiPostHandle env endpointHandle none options w r log trace

/-- The body-size guard of `apiPreHandle` (src/api.go lines 76-89). -/
def runBodySize {υ δ : Type} (env : Env) (endpointHandle : APIHandle υ δ)
    (options : HandleOptions υ δ) (w : ResponseWriter δ) (r : RouterRequest)
    (log : List LogEntry) (trace : List Stage) : PipelineResult υ δ :=
  if 0 < options.MaxBodyLength then
    let length := goParseUint64 (headerGet r.HTTP.Headers "Content-Length")
    let trace := trace ++ [Stage.bodySize]
    if options.MaxBodyLength < length then
      { writer := w.writeHeader 413
        log := log ++ [oversizeLogEntry length options.MaxBodyLength]
        trace := trace
        terminatedAt := some .bodySize
        handlerCall := none }
    else
      runAuth env endpointHandle options w r log trace
  else
    runAuth env endpointHandle options w r log trace

/-- The rate-limit stage of `apiPreHandle` (src/api.go lines 72-74); the
limiter itself lives outside `src/` and is spec-modelled (`rateLimitedWriter`). -/
def runRateLimit {υ δ : Type} (env : Env) (endpointHandle : APIHandle υ δ)
    (options : HandleOptions υ δ) (w : ResponseWriter δ) (r : RouterRequest)
    (log : List LogEntry) (trace : List Stage) : PipelineResult υ δ :=
  let trace := trace ++ [Stage.rateLimit]
  if env.limited then
    { writer := rateLimitedWriter w
      log := log
      trace := trace
      terminatedAt := some .rateLimit
      handlerCall := none }
  else
    runBodySize env endpointHandle options w r log trace

/-- Go method `API.apiPreHandle` (src/api.go lines 64-114): the full pipeline for one
request, entered with the writer the server hands the route (a fresh writer in
the real server). -/
def apiPreHandle {υ δ : Type} (env : Env) (endpointHandle : APIHandle υ δ)
    (options : HandleOptions υ δ) (w : ResponseWriter δ) (r : RouterRequest) :
    PipelineResult υ δ :=
  match options.PreHandle with
  | some pre =>
      let res := pre w r.HTTP
      if res.2.isSome then
        { writer := res.1
          log := []
          trace := [Stage.preHandle]
          terminatedAt := some .preHandle
          handlerCall := none }
      else
        runRateLimit env endpointHandle options res.1 r [] [Stage.preHandle]
  | none => runRateLimit env endpointHandle options w r [] []

/-! ### Concrete sample inputs used by witnesses and counterexamples -/

/-- A concrete inbound request. -/
def sampleHttp : HttpRequest :=
  { Method := "GET", URL := "http://localhost/x", Path := "/x"
    RemoteAddr := "192.0.2.7", Headers := [] }

/-- The same request carrying a declared `Content-Length` of 5 bytes. -/
def sampleHttpCL5 : HttpRequest := { sampleHttp with Headers := [("Content-Length", "5")] }

/-- The same request declaring a 50-byte body. -/
def sampleHttpCL50 : HttpRequest := { sampleHttp with Headers := [("Content-Length", "50")] }

/-- A routed request with no path parameters. -/
def sampleReq : RouterRequest := { HTTP := sampleHttp, Parameters := [] }

/-- Routed request declaring `Content-Length: 5`. -/
def sampleReqCL5 : RouterRequest := { HTTP := sampleHttpCL5, Parameters := [] }

/-- Routed request declaring `Content-Length: 50`. -/
def sampleReqCL50 : RouterRequest := { HTTP := sampleHttpCL50, Parameters := [] }

/-- A run-time environment in which the rate limiter admits the request. -/
def sampleEnv : Env :=
  { limited := false, requestLogLevel := "debug", elapsed := "1ms", stack := "goroutine 1" }

/-- A handler that returns the payload `1` and no error. -/
def okHandle : APIHandle Nat Nat := fun _ => .returns (some 1) none none

/-- A handler that panics. -/
def panicHandle : APIHandle Nat Nat := fun _ => .panics "Oh no!"

/-- Options whose pre-handle hook aborts every request with a 400. -/
def abortOpts : HandleOptions Nat Nat :=
  { PreHandle := some fun w _ => (w.writeHeader 400, some "boo") }

/-- Options with an authenticate hook that always reports the absent identity
and no custom unauthorized responder. -/
def authNilOpts : HandleOptions Nat Nat :=
  { AuthenticateMethod := some fun _ => none }

/-- A custom unauthorized responder issuing a redirect: sets
`Location: somewhere-else` and writes status 410. -/
def redirectResponder : ResponseWriter Nat → HttpRequest → ResponseWriter Nat :=
  fun w _ => (w.setHeader "Location" "somewhere-else").writeHeader 410

/-- Options with an always-absent authenticate hook and the redirecting
custom unauthorized responder. -/
def authNilRedirectOpts : HandleOptions Nat Nat :=
  { AuthenticateMethod := some fun _ => none
    UnauthorizedMethod := some redirectResponder }

/-- Options with a 10-byte body limit only. -/
def maxLenOpts : HandleOptions Nat Nat := { MaxBodyLength := 10 }

/-- Options with a 10-byte body limit, an always-absent authenticate hook, and
a custom unauthorized responder that itself answers with status 413. -/
def authNil413Opts : HandleOptions Nat Nat :=
  { MaxBodyLength := 10
    AuthenticateMethod := some fun _ => none
    UnauthorizedMethod := some fun w _ => w.writeHeader 413 }

/-- Options with an authenticate hook that always returns identity `7`. -/
def authSevenOpts : HandleOptions Nat Nat :=
  { AuthenticateMethod := some fun _ => some 7 }

/-- Options with every field at its zero value. -/
def emptyOpts : HandleOptions Nat Nat := {}

/-- A handler response carrying one extra header and one cookie. -/
def sampleResp : Response :=
  { Headers := [("X-Extra", "yes")], Cookies := [{ Name := "session", Value := "abc" }] }

/-- A handler that returns a data payload, extra headers/cookies, and an
error, all at once. -/
def fullHandle : APIHandle Nat Nat :=
  fun _ => .returns (some 9) (some sampleResp) (some ⟨403, "Forbidden"⟩)

/-- The caller-context contract of a handler invocation: on a route with an
authenticate hook the handler receives exactly the non-nil identity the hook
returned; on a route without one it receives the nil caller-context value. -/
def userDataMatchesAuth {υ δ : Type} (opts : HandleOptions υ δ)
    (r : RouterRequest) (req : Request υ) : Prop :=
  match opts.AuthenticateMethod with
  | some f => ∃ ud, f r.HTTP = some ud ∧ req.UserData = some ud
  | none => req.UserData = none

/-! ## Supporting lemmas -/

/-- The function `apiPostHandle` always runs the handler once, appends exactly the handler
stage to the trace, and never terminates the pipeline early. -/
theorem apiPostHandle_run {υ δ : Type} (env : Env) (h : APIHandle υ δ)
    (ud : Option υ) (opts : HandleOptions υ δ) (w : ResponseWriter δ)
    (r : RouterRequest) (log : List LogEntry) (tr : List Stage) :
    (apiPostHandle env h ud opts w r log tr).trace = tr ++ [Stage.handler] ∧
    (apiPostHandle env h ud opts w r log tr).terminatedAt = none ∧
    (apiPostHandle env h ud opts w r log tr).handlerCall =
      some ⟨r.HTTP, r.Parameters, ud⟩ := by
  unfold apiPostHandle
  rcases hh : h ⟨r.HTTP, r.Parameters, ud⟩ with ⟨d, rs, e⟩ | p
  · simp only [hh]
    rcases rs with _ | rs <;> rcases e with _ | e <;> simp
  · simp [hh]

/-- Stages recorded by a sublist of a stage list are bounded by any bound on
that list. -/
theorem stageIdx_le_of_sublist {tr l : List Stage} (htr : tr.Sublist l)
    {k : Nat} (hl : ∀ e ∈ l, stageIdx e ≤ k) : ∀ e ∈ tr, stageIdx e ≤ k :=
  fun e he => hl e (htr.subset he)

/-- The handler stage never occurs in a sublist of the three guard stages. -/
theorem handler_not_mem_of_sublist {tr : List Stage}
    (htr : tr.Sublist [Stage.preHandle, Stage.rateLimit, Stage.bodySize]) :
    Stage.handler ∉ tr := by
  intro hmem
  have := htr.subset hmem
  simp at this

/-- Stage-order property of the authentication stage onwards. -/
theorem runAuth_order {υ δ : Type} (env : Env) (h : APIHandle υ δ)
    (opts : HandleOptions υ δ) (w : ResponseWriter δ) (r : RouterRequest)
    (log : List LogEntry) (tr : List Stage)
    (htr : tr.Sublist [Stage.preHandle, Stage.rateLimit, Stage.bodySize]) :
    (runAuth env h opts w r log tr).trace.Sublist stageOrder ∧
    ∀ s, (runAuth env h opts w r log tr).terminatedAt = some s →
      (runAuth env h opts w r log tr).handlerCall = none ∧
      Stage.handler ∉ (runAuth env h opts w r log tr).trace ∧
      ∀ e ∈ (runAuth env h opts w r log tr).trace, stageIdx e ≤ stageIdx s := by
  have hpost : ∀ (tr' : List Stage), tr'.Sublist [Stage.preHandle, Stage.rateLimit,
      Stage.bodySize, Stage.auth] → ∀ (ud : Option υ),
      (apiPostHandle env h ud opts w r log tr').trace.Sublist stageOrder ∧
      ∀ s, (apiPostHandle env h ud opts w r log tr').terminatedAt = some s →
        (apiPostHandle env h ud opts w r log tr').handlerCall = none ∧
        Stage.handler ∉ (apiPostHandle env h ud opts w r log tr').trace ∧
        ∀ e ∈ (apiPostHandle env h ud opts w r log tr').trace,
          stageIdx e ≤ stageIdx s := by
    intro tr' htr' ud
    obtain ⟨h1, h2, h3⟩ := apiPostHandle_run env h ud opts w r log tr'
    refine ⟨?_, ?_⟩
    · rw [h1]
      have : ([Stage.handler] : List Stage).Sublist [Stage.handler] := List.Sublist.refl _
      exact htr'.append this
    · intro s hs
      rw [h2] at hs
      exact absurd hs (by simp)
  unfold runAuth
  rcases ha : opts.AuthenticateMethod with _ | authenticate
  · exact hpost tr (htr.trans (by decide)) none
  · simp only []
    rcases hu : isUserdataNil (authenticate r.HTTP) with _ | _
    · simp only [Bool.false_eq_true, if_false]
      exact hpost (tr ++ [Stage.auth]) (htr.append (by decide)) (authenticate r.HTTP)
    · simp only [if_true]
      rcases hum : opts.UnauthorizedMethod with _ | unauthorized
      · refine ⟨htr.append (by decide), ?_⟩
        intro s hs
        simp only [] at hs
        obtain rfl : s = Stage.auth := by injection hs with hs; exact hs.symm
        refine ⟨rfl, ?_, ?_⟩
        · intro hmem
          rcases List.mem_append.mp hmem with hmem | hmem
          · exact handler_not_mem_of_sublist htr hmem
          · simp at hmem
        · intro e he
          rcases List.mem_append.mp he with he | he
          · exact stageIdx_le_of_sublist htr
              (show ∀ e ∈ [Stage.preHandle, Stage.rateLimit, Stage.bodySize],
                stageIdx e ≤ stageIdx Stage.auth by decide) e he
          · simp at he; subst he; exact Nat.le_refl _
      · refine ⟨htr.append (by decide), ?_⟩
        intro s hs
        simp only [] at hs
        obtain rfl : s = Stage.auth := by injection hs with hs; exact hs.symm
        refine ⟨rfl, ?_, ?_⟩
        · intro hmem
          rcases List.mem_append.mp hmem with hmem | hmem
          · exact handler_not_mem_of_sublist htr hmem
          · simp at hmem
        · intro e he
          rcases List.mem_append.mp he with he | he
          · exact stageIdx_le_of_sublist htr
              (show ∀ e ∈ [Stage.preHandle, Stage.rateLimit, Stage.bodySize],
                stageIdx e ≤ stageIdx Stage.auth by decide) e he
          · simp at he; subst he; exact Nat.le_refl _

/-- An element absent from a list is absent from each of its sublists. -/
theorem not_mem_of_sublist {α : Type} {tr l : List α} (htr : tr.Sublist l)
    {x : α} (hx : x ∉ l) : x ∉ tr :=
  fun hmem => hx (htr.subset hmem)

/-- Stage-order property of the body-size guard onwards. -/
theorem runBodySize_order {υ δ : Type} (env : Env) (h : APIHandle υ δ)
    (opts : HandleOptions υ δ) (w : ResponseWriter δ) (r : RouterRequest)
    (log : List LogEntry) (tr : List Stage)
    (htr : tr.Sublist [Stage.preHandle, Stage.rateLimit]) :
    (runBodySize env h opts w r log tr).trace.Sublist stageOrder ∧
    ∀ s, (runBodySize env h opts w r log tr).terminatedAt = some s →
      (runBodySize env h opts w r log tr).handlerCall = none ∧
      Stage.handler ∉ (runBodySize env h opts w r log tr).trace ∧
      ∀ e ∈ (runBodySize env h opts w r log tr).trace, stageIdx e ≤ stageIdx s := by
  unfold runBodySize
  by_cases hmax : 0 < opts.MaxBodyLength
  · simp only [if_pos hmax]
    by_cases hlen : opts.MaxBodyLength < goParseUint64 (headerGet r.HTTP.Headers "Content-Length")
    · simp only [if_pos hlen]
      refine ⟨htr.append (by decide), ?_⟩
      intro s hs
      obtain rfl : s = Stage.bodySize := by injection hs with hs; exact hs.symm
      refine ⟨by trivial, ?_, ?_⟩
      · intro hmem
        rcases List.mem_append.mp hmem with hmem | hmem
        · exact not_mem_of_sublist htr (by decide) hmem
        · simp at hmem
      · intro e he
        rcases List.mem_append.mp he with he | he
        · exact stageIdx_le_of_sublist htr
            (show ∀ e ∈ [Stage.preHandle, Stage.rateLimit],
              stageIdx e ≤ stageIdx Stage.bodySize by decide) e he
        · simp at he; subst he; exact Nat.le_refl _
    · simp only [if_neg hlen]
      exact runAuth_order env h opts w r log _ (htr.append (by decide))
  · simp only [if_neg hmax]
    exact runAuth_order env h opts w r log tr (htr.trans (by decide))

/-- Stage-order property of the rate-limit stage onwards. -/
theorem runRateLimit_order {υ δ : Type} (env : Env) (h : APIHandle υ δ)
    (opts : HandleOptions υ δ) (w : ResponseWriter δ) (r : RouterRequest)
    (log : List LogEntry) (tr : List Stage)
    (htr : tr.Sublist [Stage.preHandle]) :
    (runRateLimit env h opts w r log tr).trace.Sublist stageOrder ∧
    ∀ s, (runRateLimit env h opts w r log tr).terminatedAt = some s →
      (runRateLimit env h opts w r log tr).handlerCall = none ∧
      Stage.handler ∉ (runRateLimit env h opts w r log tr).trace ∧
      ∀ e ∈ (runRateLimit env h opts w r log tr).trace, stageIdx e ≤ stageIdx s := by
  unfold runRateLimit
  by_cases hlim : env.limited
  · simp only [hlim, if_true]
    refine ⟨htr.append (by decide), ?_⟩
    intro s hs
    obtain rfl : s = Stage.rateLimit := by injection hs with hs; exact hs.symm
    refine ⟨by trivial, ?_, ?_⟩
    · intro hmem
      rcases List.mem_append.mp hmem with hmem | hmem
      · exact not_mem_of_sublist htr (by decide) hmem
      · simp at hmem
    · intro e he
      rcases List.mem_append.mp he with he | he
      · exact stageIdx_le_of_sublist htr
          (show ∀ e ∈ [Stage.preHandle],
            stageIdx e ≤ stageIdx Stage.rateLimit by decide) e he
      · simp at he; subst he; exact Nat.le_refl _
  · simp only [hlim, if_false]
    exact runBodySize_order env h opts w r log _ (htr.append (by decide))

/-- Claim C1: on every request to a registered JSON-API route, the pipeline
stages run in the fixed order pre-handle hook, rate-limit check, body-size
guard, authentication, handler invocation (the trace is a sublist of that
order), and whenever a stage terminates the call, the handler is never invoked
and no stage later than the terminating one runs. -/
theorem apiPreHandle_stage_order {υ δ : Type} (env : Env) (h : APIHandle υ δ)
    (opts : HandleOptions υ δ) (w : ResponseWriter δ) (r : RouterRequest) :
    (apiPreHandle env h opts w r).trace.Sublist stageOrder ∧
    ∀ s, (apiPreHandle env h opts w r).terminatedAt = some s →
      (apiPreHandle env h opts w r).handlerCall = none ∧
      Stage.handler ∉ (apiPreHandle env h opts w r).trace ∧
      ∀ e ∈ (apiPreHandle env h opts w r).trace, stageIdx e ≤ stageIdx s := by
  unfold apiPreHandle
  rcases hp : opts.PreHandle with _ | pre
  · exact runRateLimit_order env h opts w r [] [] (by decide)
  · simp only []
    by_cases habort : (pre w r.HTTP).2.isSome
    · simp only [if_pos habort]
      refine ⟨by decide, ?_⟩
      intro s hs
      obtain rfl : s = Stage.preHandle := by injection hs with hs; exact hs.symm
      exact ⟨by trivial, by decide, by decide⟩
    · simp only [if_neg habort]
      exact runRateLimit_order env h opts _ r [] [Stage.preHandle] (by decide)

/-- Witness for C1 at a concrete aborting pre-handle hook: the trace is
ordered, the handler is never called, and every stage that ran is at or before
the terminating pre-handle stage. -/
theorem apiPreHandle_stage_order_witness :
    (apiPreHandle sampleEnv okHandle abortOpts ResponseWriter.empty sampleReq).trace.Sublist
      stageOrder ∧
    (apiPreHandle sampleEnv okHandle abortOpts ResponseWriter.empty sampleReq).handlerCall
      = none ∧
    Stage.handler ∉
      (apiPreHandle sampleEnv okHandle abortOpts ResponseWriter.empty sampleReq).trace ∧
    ∀ e ∈ (apiPreHandle sampleEnv okHandle abortOpts ResponseWriter.empty sampleReq).trace,
      stageIdx e ≤ stageIdx Stage.preHandle := by
  have h := apiPreHandle_stage_order sampleEnv okHandle abortOpts ResponseWriter.empty sampleReq
  exact ⟨h.1, h.2 Stage.preHandle rfl⟩

/-- A request whose pre-handle hook passes it through untouched, that is not
rate limited, and whose declared length does not trip the body-size guard,
reaches the authentication stage with the writer still untouched; the trace so
far never contains the handler stage. -/
theorem apiPreHandle_reaches_auth {υ δ : Type} (env : Env) (h : APIHandle υ δ)
    (opts : HandleOptions υ δ) (r : RouterRequest)
    (hlim : env.limited = false)
    (hpre : ∀ pre, opts.PreHandle = some pre →
      pre ResponseWriter.empty r.HTTP = (ResponseWriter.empty, none))
    (hbody : opts.MaxBodyLength = 0 ∨
      goParseUint64 (headerGet r.HTTP.Headers "Content-Length") ≤ opts.MaxBodyLength) :
    ∃ tr, apiPreHandle env h opts ResponseWriter.empty r
        = runAuth env h opts ResponseWriter.empty r [] tr ∧
      Stage.handler ∉ tr := by
  have hle : ¬ (0 < opts.MaxBodyLength) ∨
      ¬ (opts.MaxBodyLength < goParseUint64 (headerGet r.HTTP.Headers "Content-Length")) := by
    rcases hbody with hb | hb
    · exact Or.inl (by omega)
    · exact Or.inr (Nat.not_lt.mpr hb)
  unfold apiPreHandle runRateLimit runBodySize
  rcases hp : opts.PreHandle with _ | pre
  · simp only [hlim, Bool.false_eq_true, if_false]
    rcases hle with hb | hb
    · refine ⟨[Stage.rateLimit], ?_, by decide⟩
      simp [hb]
    · by_cases h0 : 0 < opts.MaxBodyLength
      · refine ⟨[Stage.rateLimit, Stage.bodySize], ?_, by decide⟩
        simp [h0, hb]
      · refine ⟨[Stage.rateLimit], ?_, by decide⟩
        simp [h0]
  · have hpe := hpre pre hp
    simp only [hpe, Option.isSome_none, Bool.false_eq_true, if_false, hlim]
    rcases hle with hb | hb
    · refine ⟨[Stage.preHandle, Stage.rateLimit], ?_, by decide⟩
      simp [hb]
    · by_cases h0 : 0 < opts.MaxBodyLength
      · refine ⟨[Stage.preHandle, Stage.rateLimit, Stage.bodySize], ?_, by decide⟩
        simp [h0, hb]
      · refine ⟨[Stage.preHandle, Stage.rateLimit], ?_, by decide⟩
        simp [h0]

/-- Claim C2: a request that reaches the authentication stage of a route whose
authenticate hook returns the absent (nil) identity and which has no custom
unauthorized responder is answered with status 401, `Content-Type:
application/json`, and a body that is exactly the uniform error envelope
`{"Code": 401, "Message": "Unauthorized"}`; the handler never runs. -/
theorem apiPreHandle_unauthorized_default {υ δ : Type} (env : Env)
    (h : APIHandle υ δ) (opts : HandleOptions υ δ) (r : RouterRequest)
    (f : HttpRequest → Option υ)
    (hlim : env.limited = false)
    (hpre : ∀ pre, opts.PreHandle = some pre →
      pre ResponseWriter.empty r.HTTP = (ResponseWriter.empty, none))
    (hbody : opts.MaxBodyLength = 0 ∨
      goParseUint64 (headerGet r.HTTP.Headers "Content-Length") ≤ opts.MaxBodyLength)
    (hf : opts.AuthenticateMethod = some f)
    (hfnil : f r.HTTP = none)
    (hu : opts.UnauthorizedMethod = none) :
    (apiPreHandle env h opts ResponseWriter.empty r).writer.effectiveStatus = 401 ∧
    headerGet (apiPreHandle env h opts ResponseWriter.empty r).writer.headers
      "Content-Type" = "application/json" ∧
    (apiPreHandle env h opts ResponseWriter.empty r).writer.body
      = [Chunk.errObj ⟨401, "Unauthorized"⟩] ∧
    (apiPreHandle env h opts ResponseWriter.empty r).handlerCall = none := by
  obtain ⟨tr, heq, -⟩ := apiPreHandle_reaches_auth env h opts r hlim hpre hbody
  rw [heq]
  unfold runAuth
  simp only [hf, hfnil, hu, isUserdataNil, Option.isNone_none, if_true]
  exact ⟨rfl, rfl, rfl, trivial⟩

/-- Witness for C2 at a concrete route (absent identity, no custom
responder, no other options): status 401, JSON content type, the uniform
envelope body, and no handler invocation. -/
theorem apiPreHandle_unauthorized_default_witness :
    (apiPreHandle sampleEnv okHandle authNilOpts ResponseWriter.empty sampleReq).writer.effectiveStatus
      = 401 ∧
    headerGet (apiPreHandle sampleEnv okHandle authNilOpts ResponseWriter.empty
      sampleReq).writer.headers "Content-Type" = "application/json" ∧
    (apiPreHandle sampleEnv okHandle authNilOpts ResponseWriter.empty sampleReq).writer.body
      = [Chunk.errObj ⟨401, "Unauthorized"⟩] ∧
    (apiPreHandle sampleEnv okHandle authNilOpts ResponseWriter.empty sampleReq).handlerCall
      = none :=
  apiPreHandle_unauthorized_default sampleEnv okHandle authNilOpts sampleReq
    (fun _ => none) rfl
    (fun pre hpre => by simp [authNilOpts] at hpre)
    (Or.inl rfl) rfl rfl rfl

/-- Claim C3: a request that reaches the authentication stage of a route whose
authenticate hook returns the absent identity and which configures a custom
unauthorized responder is answered by exactly that responder's writes to the
until-then-untouched writer: the pipeline adds nothing (no default 401
envelope), and the handler never runs. -/
theorem apiPreHandle_unauthorized_custom {υ δ : Type} (env : Env)
    (h : APIHandle υ δ) (opts : HandleOptions υ δ) (r : RouterRequest)
    (f : HttpRequest → Option υ)
    (u : ResponseWriter δ → HttpRequest → ResponseWriter δ)
    (hlim : env.limited = false)
    (hpre : ∀ pre, opts.PreHandle = some pre →
      pre ResponseWriter.empty r.HTTP = (ResponseWriter.empty, none))
    (hbody : opts.MaxBodyLength = 0 ∨
      goParseUint64 (headerGet r.HTTP.Headers "Content-Length") ≤ opts.MaxBodyLength)
    (hf : opts.AuthenticateMethod = some f)
    (hfnil : f r.HTTP = none)
    (hu : opts.UnauthorizedMethod = some u) :
    (apiPreHandle env h opts ResponseWriter.empty r).writer
      = u ResponseWriter.empty r.HTTP ∧
    (apiPreHandle env h opts ResponseWriter.empty r).handlerCall = none ∧
    Stage.handler ∉ (apiPreHandle env h opts ResponseWriter.empty r).trace := by
  obtain ⟨tr, heq, htr⟩ := apiPreHandle_reaches_auth env h opts r hlim hpre hbody
  rw [heq]
  unfold runAuth
  simp only [hf, hfnil, hu, isUserdataNil, Option.isNone_none, if_true]
  refine ⟨by trivial, by trivial, ?_⟩
  intro hmem
  rcases List.mem_append.mp hmem with hmem | hmem
  · exact htr hmem
  · simp at hmem

/-- Witness for C3 at the concrete redirecting responder of the spec's
example: the response is exactly the responder's (`Location: somewhere-else`,
status 410), and the handler never runs. -/
theorem apiPreHandle_unauthorized_custom_witness :
    ((apiPreHandle sampleEnv okHandle authNilRedirectOpts ResponseWriter.empty
        sampleReq).writer
      = redirectResponder ResponseWriter.empty sampleHttp ∧
    (apiPreHandle sampleEnv okHandle authNilRedirectOpts ResponseWriter.empty
        sampleReq).handlerCall = none ∧
    Stage.handler ∉ (apiPreHandle sampleEnv okHandle authNilRedirectOpts
        ResponseWriter.empty sampleReq).trace) ∧
    (apiPreHandle sampleEnv okHandle authNilRedirectOpts ResponseWriter.empty
        sampleReq).writer.effectiveStatus = 410 ∧
    headerGet (apiPreHandle sampleEnv okHandle authNilRedirectOpts
        ResponseWriter.empty sampleReq).writer.headers "Location" = "somewhere-else" :=
  ⟨apiPreHandle_unauthorized_custom sampleEnv okHandle authNilRedirectOpts sampleReq
    (fun _ => none) redirectResponder rfl
    (fun pre hpre => by simp [authNilRedirectOpts] at hpre)
    (Or.inl rfl) rfl rfl rfl, rfl, rfl⟩

/-- From the authentication stage on, the pipeline either terminates at the
authentication stage or not at all. -/
theorem runAuth_term {υ δ : Type} (env : Env) (h : APIHandle υ δ)
    (opts : HandleOptions υ δ) (w : ResponseWriter δ) (r : RouterRequest)
    (log : List LogEntry) (tr : List Stage) :
    (runAuth env h opts w r log tr).terminatedAt = none ∨
    (runAuth env h opts w r log tr).terminatedAt = some Stage.auth := by
  unfold runAuth
  rcases opts.AuthenticateMethod with _ | authenticate
  · exact Or.inl (apiPostHandle_run env h none opts w r log tr).2.1
  · simp only []
    rcases isUserdataNil (authenticate r.HTTP) with _ | _
    · simp only [Bool.false_eq_true, if_false]
      exact Or.inl (apiPostHandle_run env h (authenticate r.HTTP) opts w r log _).2.1
    · simp only [if_true]
      rcases opts.UnauthorizedMethod with _ | unauthorized
      · exact Or.inr rfl
      · exact Or.inr rfl

/-- Counterexample to C4 as stated: on a route with `MaxBodyLength = 10`, an
always-absent authenticate hook, and a custom unauthorized responder that
itself writes status 413, a request declaring `Content-Length: 5` yields
status 413 with the handler never running even though the declared length does
not exceed the limit, so the stated equivalence is false. -/
theorem apiPreHandle_bodysize_iff_counterexample :
    ¬ (((apiPreHandle sampleEnv okHandle authNil413Opts ResponseWriter.empty
          sampleReqCL5).writer.effectiveStatus = 413 ∧
        (apiPreHandle sampleEnv okHandle authNil413Opts ResponseWriter.empty
          sampleReqCL5).handlerCall = none) ↔
      authNil413Opts.MaxBodyLength <
        goParseUint64 (headerGet sampleReqCL5.HTTP.Headers "Content-Length")) := by
  intro hiff
  exact absurd (hiff.mp ⟨rfl, rfl⟩) (by decide)

/-- Claim C4 (amended): on a route with `MaxBodyLength > 0`, for a request
that passes the earlier stages untouched, the body-size guard terminates the
call exactly when the declared `Content-Length` parses (Go `ParseUint`
semantics, saturating at `2^64 - 1`) to a value exceeding `MaxBodyLength`; on
rejection the status is 413 and the handler never runs, and a header that is
not a digit string parses to 0 and is allowed through. The response can still
be 413 without an oversized length when a later hook itself writes 413. -/
theorem apiPreHandle_bodysize_guard {υ δ : Type} (env : Env) (h : APIHandle υ δ)
    (opts : HandleOptions υ δ) (r : RouterRequest)
    (hmax : 0 < opts.MaxBodyLength)
    (hlim : env.limited = false)
    (hpre : ∀ pre, opts.PreHandle = some pre →
      pre ResponseWriter.empty r.HTTP = (ResponseWriter.empty, none)) :
    ((apiPreHandle env h opts ResponseWriter.empty r).terminatedAt
        = some Stage.bodySize ↔
      opts.MaxBodyLength < goParseUint64 (headerGet r.HTTP.Headers "Content-Length")) ∧
    (opts.MaxBodyLength < goParseUint64 (headerGet r.HTTP.Headers "Content-Length") →
      (apiPreHandle env h opts ResponseWriter.empty r).writer.effectiveStatus = 413 ∧
      (apiPreHandle env h opts ResponseWriter.empty r).handlerCall = none) ∧
    (¬ (0 < (headerGet r.HTTP.Headers "Content-Length").data.length ∧
        (headerGet r.HTTP.Headers "Content-Length").data.all (fun c => c.isDigit)) →
      goParseUint64 (headerGet r.HTTP.Headers "Content-Length") = 0) := by
  refine ⟨?_, ?_, fun hn => by simp only [goParseUint64, if_neg hn]⟩
  · by_cases hov : opts.MaxBodyLength <
        goParseUint64 (headerGet r.HTTP.Headers "Content-Length")
    · refine iff_of_true ?_ hov
      unfold apiPreHandle runRateLimit runBodySize
      rcases hp : opts.PreHandle with _ | pre
      · simp [hlim, hmax, hov]
      · simp [hpre pre hp, hlim, hmax, hov]
    · refine iff_of_false ?_ hov
      obtain ⟨tr, heq, -⟩ := apiPreHandle_reaches_auth env h opts r hlim hpre
        (Or.inr (Nat.not_lt.mp hov))
      rw [heq]
      rcases runAuth_term env h opts ResponseWriter.empty r [] tr with hterm | hterm <;>
        simp [hterm]
  · intro hov
    have hgo : ∃ tr, apiPreHandle env h opts ResponseWriter.empty r
        = runRateLimit env h opts ResponseWriter.empty r [] tr := by
      rcases hp : opts.PreHandle with _ | pre
      · exact ⟨[], by unfold apiPreHandle; simp only [hp]⟩
      · exact ⟨[Stage.preHandle], by
          unfold apiPreHandle
          simp only [hp, hpre pre hp, Option.isSome_none, Bool.false_eq_true, if_false]⟩
    obtain ⟨tr, heq⟩ := hgo
    rw [heq]
    unfold runRateLimit runBodySize
    simp only [hlim, Bool.false_eq_true, if_false, if_pos hmax, if_pos hov]
    exact ⟨by trivial, by trivial⟩

/-- Witness for the amended C4 at a concrete oversized request
(`Content-Length: 50` against a 10-byte limit): the guard terminates the
call, status is 413, and the handler never runs. -/
theorem apiPreHandle_bodysize_guard_witness :
    (0 < maxLenOpts.MaxBodyLength) ∧
    ((apiPreHandle sampleEnv okHandle maxLenOpts ResponseWriter.empty
        sampleReqCL50).terminatedAt = some Stage.bodySize ↔
      maxLenOpts.MaxBodyLength <
        goParseUint64 (headerGet sampleReqCL50.HTTP.Headers "Content-Length")) ∧
    (apiPreHandle sampleEnv okHandle maxLenOpts ResponseWriter.empty
        sampleReqCL50).writer.effectiveStatus = 413 ∧
    (apiPreHandle sampleEnv okHandle maxLenOpts ResponseWriter.empty
        sampleReqCL50).handlerCall = none := by
  have h := apiPreHandle_bodysize_guard sampleEnv okHandle maxLenOpts sampleReqCL50
    (by decide) rfl (fun pre hp => by simp [maxLenOpts] at hp)
  exact ⟨by decide, h.1, h.2.1 (by decide)⟩

/-- Reading back a header just set yields the value set. -/
theorem headerGet_set_same (hs : List (String × String)) (k v : String) :
    headerGet (headerSet hs k v) k = v := by
  simp [headerGet, headerSet, List.find?]

/-- Applying a list of `Header().Set` calls never changes the status. -/
theorem foldl_setHeader_status {δ : Type} (hs : List (String × String))
    (w : ResponseWriter δ) :
    (hs.foldl (fun w kv => w.setHeader kv.1 kv.2) w).status = w.status := by
  induction hs generalizing w with
  | nil => rfl
  | cons kv rest ih => rw [List.foldl_cons, ih]; rfl

/-- Applying a list of `Header().Set` calls never changes the body. -/
theorem foldl_setHeader_body {δ : Type} (hs : List (String × String))
    (w : ResponseWriter δ) :
    (hs.foldl (fun w kv => w.setHeader kv.1 kv.2) w).body = w.body := by
  induction hs generalizing w with
  | nil => rfl
  | cons kv rest ih => rw [List.foldl_cons, ih]; rfl

/-- Claim C5: a JSON-API handler invocation that panics (any panic value) is
contained at the per-request boundary: the response is status 500 with the
JSON envelope carrying the generic server-error payload (a constant body that
cannot mention the panic value), the JSON content type is kept, and the full
diagnostic detail (panic value and stack) is appended to the server-side log. -/
theorem apiPostHandle_panic_contained {υ δ : Type} (env : Env)
    (h : APIHandle υ δ) (ud : Option υ) (opts : HandleOptions υ δ)
    (w : ResponseWriter δ) (r : RouterRequest) (log : List LogEntry)
    (tr : List Stage) (p : String)
    (hw : w.status = none)
    (hp : h ⟨r.HTTP, r.Parameters, ud⟩ = .panics p) :
    (apiPostHandle env h ud opts w r log tr).writer.effectiveStatus = 500 ∧
    (apiPostHandle env h ud opts w r log tr).writer.body = w.body ++
      [Chunk.envelope { Data := none, Error := some CommonErrorsServerError }] ∧
    headerGet (apiPostHandle env h ud opts w r log tr).writer.headers
      "Content-Type" = "application/json" ∧
    (apiPostHandle env h ud opts w r log tr).log = log ++ [panicLogEntry env r p] ∧
    ("error", p) ∈ (panicLogEntry env r p).fields ∧
    ("stack", env.stack) ∈ (panicLogEntry env r p).fields := by
  unfold apiPostHandle
  simp only [hp]
  refine ⟨?_, ?_, ?_, by trivial, ?_, ?_⟩
  · simp [ResponseWriter.effectiveStatus, ResponseWriter.writeChunk,
      ResponseWriter.writeHeader, ResponseWriter.setHeader, hw]
  · simp [ResponseWriter.writeChunk, ResponseWriter.writeHeader,
      ResponseWriter.setHeader, hw]
  · simp only [ResponseWriter.writeChunk, ResponseWriter.writeHeader,
      ResponseWriter.setHeader, hw]
    exact headerGet_set_same w.headers "Content-Type" "application/json"
  · simp [panicLogEntry]
  · simp [panicLogEntry]

/-- Witness for C5: a concrete panicking handler yields status 500, the
constant server-error envelope, and a log entry carrying the panic value. -/
theorem apiPostHandle_panic_contained_witness :
    (apiPostHandle sampleEnv panicHandle none emptyOpts ResponseWriter.empty
      sampleReq [] []).writer.effectiveStatus = 500 ∧
    (apiPostHandle sampleEnv panicHandle none emptyOpts ResponseWriter.empty
      sampleReq [] []).writer.body = ResponseWriter.empty.body ++
      [Chunk.envelope { Data := none, Error := some CommonErrorsServerError }] ∧
    headerGet (apiPostHandle sampleEnv panicHandle none emptyOpts
      ResponseWriter.empty sampleReq [] []).writer.headers "Content-Type"
      = "application/json" ∧
    (apiPostHandle sampleEnv panicHandle none emptyOpts ResponseWriter.empty
      sampleReq [] []).log = [] ++ [panicLogEntry sampleEnv sampleReq "Oh no!"] ∧
    ("error", "Oh no!") ∈ (panicLogEntry sampleEnv sampleReq "Oh no!").fields ∧
    ("stack", sampleEnv.stack) ∈ (panicLogEntry sampleEnv sampleReq "Oh no!").fields :=
  apiPostHandle_panic_contained sampleEnv panicHandle none emptyOpts
    ResponseWriter.empty sampleReq [] [] "Oh no!" rfl rfl

/-- Setting a header leaves the status unchanged. -/
theorem setHeader_status {δ : Type} (w : ResponseWriter δ) (k v : String) :
    (w.setHeader k v).status = w.status := rfl

/-- Setting a header leaves the body unchanged. -/
theorem setHeader_body {δ : Type} (w : ResponseWriter δ) (k v : String) :
    (w.setHeader k v).body = w.body := rfl

/-- Setting a header leaves the cookies unchanged. -/
theorem setHeader_cookies {δ : Type} (w : ResponseWriter δ) (k v : String) :
    (w.setHeader k v).cookies = w.cookies := rfl

/-- Setting a header replaces the stored header value. -/
theorem setHeader_headers {δ : Type} (w : ResponseWriter δ) (k v : String) :
    (w.setHeader k v).headers = headerSet w.headers k v := rfl

/-- Writing a body chunk leaves the status unchanged. -/
theorem writeChunk_status {δ : Type} (w : ResponseWriter δ) (c : Chunk δ) :
    (w.writeChunk c).status = w.status := rfl

/-- Writing a body chunk appends it to the body. -/
theorem writeChunk_body {δ : Type} (w : ResponseWriter δ) (c : Chunk δ) :
    (w.writeChunk c).body = w.body ++ [c] := rfl

/-- Writing a body chunk leaves the headers unchanged. -/
theorem writeChunk_headers {δ : Type} (w : ResponseWriter δ) (c : Chunk δ) :
    (w.writeChunk c).headers = w.headers := rfl

/-- Writing a body chunk leaves the cookies unchanged. -/
theorem writeChunk_cookies {δ : Type} (w : ResponseWriter δ) (c : Chunk δ) :
    (w.writeChunk c).cookies = w.cookies := rfl

/-- Calling `WriteHeader` on a writer with no status yet sets that status. -/
theorem writeHeader_status_none {δ : Type} (w : ResponseWriter δ) (c : Nat)
    (h : w.status = none) : (w.writeHeader c).status = some c := by
  simp [ResponseWriter.writeHeader, h]

/-- Calling `WriteHeader` never changes the body. -/
theorem writeHeader_body {δ : Type} (w : ResponseWriter δ) (c : Nat) :
    (w.writeHeader c).body = w.body := by
  rcases hs : w.status <;> simp [ResponseWriter.writeHeader, hs]

/-- Calling `WriteHeader` never changes the headers. -/
theorem writeHeader_headers {δ : Type} (w : ResponseWriter δ) (c : Nat) :
    (w.writeHeader c).headers = w.headers := by
  rcases hs : w.status <;> simp [ResponseWriter.writeHeader, hs]

/-- Calling `WriteHeader` never changes the cookies. -/
theorem writeHeader_cookies {δ : Type} (w : ResponseWriter δ) (c : Nat) :
    (w.writeHeader c).cookies = w.cookies := by
  rcases hs : w.status <;> simp [ResponseWriter.writeHeader, hs]

/-- Applying a list of `Header().Set` calls never changes the cookies. -/
theorem foldl_setHeader_cookies {δ : Type} (hs : List (String × String))
    (w : ResponseWriter δ) :
    (hs.foldl (fun w kv => w.setHeader kv.1 kv.2) w).cookies = w.cookies := by
  induction hs generalizing w with
  | nil => rfl
  | cons kv rest ih => rw [List.foldl_cons, ih]; rfl

/-- Claim C6: a JSON-API handler invocation that returns normally yields the
handler's reported error code as HTTP status when it returned an error and 200
otherwise, and the emitted envelope carries the `Error` object exactly when an
error was returned and the `Data` payload exactly when none was. -/
theorem apiPostHandle_status_envelope {υ δ : Type} (env : Env)
    (h : APIHandle υ δ) (ud : Option υ) (opts : HandleOptions υ δ)
    (w : ResponseWriter δ) (r : RouterRequest) (log : List LogEntry)
    (tr : List Stage) (data : Option δ) (resp : Option Response)
    (err : Option Error)
    (hw : w.status = none)
    (hret : h ⟨r.HTTP, r.Parameters, ud⟩ = .returns data resp err) :
    (apiPostHandle env h ud opts w r log tr).writer.effectiveStatus
      = (match err with | some e => e.Code | none => 200) ∧
    (apiPostHandle env h ud opts w r log tr).writer.body
      = w.body ++ [Chunk.envelope
          { Data := match err with | some _ => none | none => data
            Error := err }] := by
  unfold apiPostHandle
  simp only [hret]
  rcases resp with _ | resp <;> rcases err with _ | e <;>
    refine ⟨?_, ?_⟩ <;>
    simp [ResponseWriter.effectiveStatus, writeChunk_status, writeChunk_body,
      writeHeader_status_none, writeHeader_body, setHeader_status, setHeader_body,
      foldl_setHeader_status, foldl_setHeader_body, hw]

/-- Witness for C6: a concrete handler returning payload `1` and no error
yields status 200 and an envelope with only `Data`. -/
theorem apiPostHandle_status_envelope_witness :
    (apiPostHandle sampleEnv okHandle none emptyOpts ResponseWriter.empty
      sampleReq [] []).writer.effectiveStatus = 200 ∧
    (apiPostHandle sampleEnv okHandle none emptyOpts ResponseWriter.empty
      sampleReq [] []).writer.body = ResponseWriter.empty.body ++
      [Chunk.envelope { Data := some 1, Error := none }] :=
  apiPostHandle_status_envelope sampleEnv okHandle none emptyOpts
    ResponseWriter.empty sampleReq [] [] (some 1) none none rfl rfl

/-- Claim C10: a handler invocation returning both a payload and an error
emits an envelope with only the `Error` object (the payload is discarded),
while the handler's extra headers and cookies are still applied and the
status is the error's code. -/
theorem apiPostHandle_error_discards_data {υ δ : Type} (env : Env)
    (h : APIHandle υ δ) (ud : Option υ) (opts : HandleOptions υ δ)
    (w : ResponseWriter δ) (r : RouterRequest) (log : List LogEntry)
    (tr : List Stage) (d : δ) (resp : Response) (e : Error)
    (hw : w.status = none)
    (hret : h ⟨r.HTTP, r.Parameters, ud⟩ = .returns (some d) (some resp) (some e)) :
    (apiPostHandle env h ud opts w r log tr).writer.body
      = w.body ++ [Chunk.envelope { Data := none, Error := some e }] ∧
    (apiPostHandle env h ud opts w r log tr).writer.effectiveStatus = e.Code ∧
    (apiPostHandle env h ud opts w r log tr).writer.headers
      = (resp.Headers.foldl (fun w kv => w.setHeader kv.1 kv.2)
          (w.setHeader "Content-Type" "application/json")).headers ∧
    (apiPostHandle env h ud opts w r log tr).writer.cookies
      = w.cookies ++ resp.Cookies := by
  unfold apiPostHandle
  simp only [hret]
  refine ⟨?_, ?_, ?_, ?_⟩
  · simp [writeChunk_body, writeHeader_body, foldl_setHeader_body, setHeader_body]
  · simp [ResponseWriter.effectiveStatus, writeChunk_status, writeHeader_status_none,
      foldl_setHeader_status, setHeader_status, hw]
  · simp [writeChunk_headers, writeHeader_headers, setHeader_cookies]
  · simp [writeChunk_cookies, writeHeader_cookies, setHeader_cookies]

/-- Witness for C10: the concrete `fullHandle` returning payload 9, one extra
header, one cookie, and a 403 error yields the error-only envelope, status
403, the applied header, and the appended cookie. -/
theorem apiPostHandle_error_discards_data_witness :
    (apiPostHandle sampleEnv fullHandle none emptyOpts ResponseWriter.empty
      sampleReq [] []).writer.body = ResponseWriter.empty.body ++
      [Chunk.envelope { Data := none, Error := some ⟨403, "Forbidden"⟩ }] ∧
    (apiPostHandle sampleEnv fullHandle none emptyOpts ResponseWriter.empty
      sampleReq [] []).writer.effectiveStatus = (403 : Nat) ∧
    (apiPostHandle sampleEnv fullHandle none emptyOpts ResponseWriter.empty
      sampleReq [] []).writer.headers
      = (sampleResp.Headers.foldl (fun w kv => w.setHeader kv.1 kv.2)
          ((ResponseWriter.empty : ResponseWriter Nat).setHeader
            "Content-Type" "application/json")).headers ∧
    (apiPostHandle sampleEnv fullHandle none emptyOpts ResponseWriter.empty
      sampleReq [] []).writer.cookies
      = (ResponseWriter.empty : ResponseWriter Nat).cookies ++ sampleResp.Cookies :=
  apiPostHandle_error_discards_data sampleEnv fullHandle none emptyOpts
    ResponseWriter.empty sampleReq [] [] 9 sampleResp ⟨403, "Forbidden"⟩ rfl rfl

/-- Counterexample to C8 as stated: on a concrete logged request the resulting
status is 200 but no field of the single access-log record carries it — the
record has only remote address, method, URL, and elapsed time. -/
theorem apiPostHandle_access_log_counterexample :
    (apiPostHandle sampleEnv okHandle none emptyOpts ResponseWriter.empty
      sampleReq [] []).writer.effectiveStatus = 200 ∧
    (apiPostHandle sampleEnv okHandle none emptyOpts ResponseWriter.empty
      sampleReq [] []).log = [accessLogEntry sampleEnv sampleReq] ∧
    ∀ kv ∈ (accessLogEntry sampleEnv sampleReq).fields, kv.2 ≠ "200" := by
  exact ⟨rfl, rfl, by decide⟩

/-- Claim C8 (amended): for a handler invocation that returns normally, the
pipeline appends exactly one access-log record — with fields remote address,
method, URL, and elapsed time, but no resulting HTTP status — unless
`DontLogRequests` suppresses it, in which case no access-log record is
written. -/
theorem apiPostHandle_access_log {υ δ : Type} (env : Env) (h : APIHandle υ δ)
    (ud : Option υ) (opts : HandleOptions υ δ) (w : ResponseWriter δ)
    (r : RouterRequest) (log : List LogEntry) (tr : List Stage)
    (data : Option δ) (resp : Option Response) (err : Option Error)
    (hret : h ⟨r.HTTP, r.Parameters, ud⟩ = .returns data resp err) :
    (apiPostHandle env h ud opts w r log tr).log
      = (if opts.DontLogRequests then log else log ++ [accessLogEntry env r]) ∧
    (accessLogEntry env r).fields.map Prod.fst
      = ["remote_addr", "method", "url", "elapsed"] := by
  refine ⟨?_, rfl⟩
  unfold apiPostHandle
  simp only [hret]

/-- Witness for the amended C8 at a concrete logged request. -/
theorem apiPostHandle_access_log_witness :
    (apiPostHandle sampleEnv okHandle none emptyOpts ResponseWriter.empty
      sampleReq [] []).log
      = (if emptyOpts.DontLogRequests then []
          else [] ++ [accessLogEntry sampleEnv sampleReq]) ∧
    (accessLogEntry sampleEnv sampleReq).fields.map Prod.fst
      = ["remote_addr", "method", "url", "elapsed"] :=
  apiPostHandle_access_log sampleEnv okHandle none emptyOpts ResponseWriter.empty
    sampleReq [] [] (some 1) none none rfl

/-- From the authentication stage on, any handler invocation receives exactly
the caller context that authentication produced. -/
theorem runAuth_userdata {υ δ : Type} (env : Env) (h : APIHandle υ δ)
    (opts : HandleOptions υ δ) (w : ResponseWriter δ) (r : RouterRequest)
    (log : List LogEntry) (tr : List Stage) :
    ∀ req, (runAuth env h opts w r log tr).handlerCall = some req →
      userDataMatchesAuth opts r req := by
  intro req hreq
  unfold runAuth at hreq
  rcases ha : opts.AuthenticateMethod with _ | f
  · rw [ha] at hreq
    have h3 := (apiPostHandle_run env h none opts w r log tr).2.2
    rw [h3] at hreq
    obtain rfl : (⟨r.HTTP, r.Parameters, none⟩ : Request υ) = req := by
      injection hreq
    simp [userDataMatchesAuth, ha]
  · rw [ha] at hreq
    simp only [] at hreq
    rcases hfr : f r.HTTP with _ | u
    · rw [hfr] at hreq
      simp only [isUserdataNil, Option.isNone_none, if_true] at hreq
      rcases ho : opts.UnauthorizedMethod with _ | un <;> simp [ho] at hreq
    · rw [hfr] at hreq
      simp only [isUserdataNil, Option.isNone_some, Bool.false_eq_true, if_false] at hreq
      have h3 := (apiPostHandle_run env h (some u) opts w r log
        (tr ++ [Stage.auth])).2.2
      rw [h3] at hreq
      obtain rfl : (⟨r.HTTP, r.Parameters, some u⟩ : Request υ) = req := by
        injection hreq
      simp only [userDataMatchesAuth, ha]
      exact ⟨u, hfr, rfl⟩

/-- Lifting the caller-context contract over the body-size guard. -/
theorem runBodySize_userdata {υ δ : Type} (env : Env) (h : APIHandle υ δ)
    (opts : HandleOptions υ δ) (w : ResponseWriter δ) (r : RouterRequest)
    (log : List LogEntry) (tr : List Stage) :
    ∀ req, (runBodySize env h opts w r log tr).handlerCall = some req →
      userDataMatchesAuth opts r req := by
  intro req hreq
  unfold runBodySize at hreq
  by_cases h0 : 0 < opts.MaxBodyLength
  · rw [if_pos h0] at hreq
    simp only [] at hreq
    by_cases hov : opts.MaxBodyLength <
        goParseUint64 (headerGet r.HTTP.Headers "Content-Length")
    · rw [if_pos hov] at hreq
      exact absurd hreq (by simp)
    · rw [if_neg hov] at hreq
      exact runAuth_userdata env h opts w r log _ req hreq
  · rw [if_neg h0] at hreq
    exact runAuth_userdata env h opts w r log tr req hreq

/-- Lifting the caller-context contract over the rate-limit stage. -/
theorem runRateLimit_userdata {υ δ : Type} (env : Env) (h : APIHandle υ δ)
    (opts : HandleOptions υ δ) (w : ResponseWriter δ) (r : RouterRequest)
    (log : List LogEntry) (tr : List Stage) :
    ∀ req, (runRateLimit env h opts w r log tr).handlerCall = some req →
      userDataMatchesAuth opts r req := by
  intro req hreq
  unfold runRateLimit at hreq
  by_cases hlim : env.limited
  · simp only [hlim, if_true] at hreq
    exact absurd hreq (by simp)
  · simp only [hlim, Bool.false_eq_true, if_false] at hreq
    exact runBodySize_userdata env h opts w r log _ req hreq

/-- Claim C9: every handler invocation receives a caller-context value that is
present exactly when authentication succeeded: with an authenticate hook
configured, the handler receives precisely the non-nil identity the hook
returned; without one, it receives the nil caller-context value. -/
theorem apiPreHandle_userdata {υ δ : Type} (env : Env) (h : APIHandle υ δ)
    (opts : HandleOptions υ δ) (w : ResponseWriter δ) (r : RouterRequest) :
    ∀ req, (apiPreHandle env h opts w r).handlerCall = some req →
      userDataMatchesAuth opts r req := by
  intro req hreq
  unfold apiPreHandle at hreq
  rcases hp : opts.PreHandle with _ | pre
  · rw [hp] at hreq
    exact runRateLimit_userdata env h opts w r [] [] req hreq
  · rw [hp] at hreq
    simp only [] at hreq
    by_cases habort : (pre w r.HTTP).2.isSome
    · rw [if_pos habort] at hreq
      exact absurd hreq (by simp)
    · rw [if_neg habort] at hreq
      exact runRateLimit_userdata env h opts _ r [] [Stage.preHandle] req hreq

/-- Witness for C9: with a hook returning identity `7`, the handler is invoked
with exactly that caller context. -/
theorem apiPreHandle_userdata_witness :
    userDataMatchesAuth authSevenOpts sampleReq
      ⟨sampleReq.HTTP, sampleReq.Parameters, some 7⟩ :=
  apiPreHandle_userdata sampleEnv okHandle authSevenOpts ResponseWriter.empty
    sampleReq ⟨sampleReq.HTTP, sampleReq.Parameters, some 7⟩ rfl

/-- Counterexample to C7 as stated: the pipeline's 413 body-too-large
rejection (here: `Content-Length: 50` against a 10-byte limit) terminates the
request with an empty body — no JSON error envelope of any kind is written. -/
theorem apiPreHandle_envelope_counterexample :
    (apiPreHandle sampleEnv okHandle maxLenOpts ResponseWriter.empty
      sampleReqCL50).writer.effectiveStatus = 413 ∧
    (apiPreHandle sampleEnv okHandle maxLenOpts ResponseWriter.empty
      sampleReqCL50).handlerCall = none ∧
    ¬ ∃ e : Error, (apiPreHandle sampleEnv okHandle maxLenOpts
      ResponseWriter.empty sampleReqCL50).writer.body = [Chunk.errObj e] :=
  ⟨rfl, rfl, fun hex => by
    obtain ⟨e, he⟩ := hex
    have hb : (apiPreHandle sampleEnv okHandle maxLenOpts ResponseWriter.empty
      sampleReqCL50).writer.body = ([] : List (Chunk Nat)) := rfl
    rw [hb] at he
    exact List.noConfusion he⟩

/-- Claim C7 (amended): the pipeline's default 401 unauthorized rejection
carries the uniform JSON error envelope, but the 413 body-too-large rejection
is an exception: it writes a bare status 413 with an empty body, so clients do
not always receive an envelope from pipeline-generated rejections. -/
theorem apiPreHandle_rejection_bodies {υ δ : Type} (env : Env)
    (h : APIHandle υ δ) (opts : HandleOptions υ δ) (r : RouterRequest)
    (hlim : env.limited = false)
    (hpre : ∀ pre, opts.PreHandle = some pre →
      pre ResponseWriter.empty r.HTTP = (ResponseWriter.empty, none)) :
    (∀ f, opts.AuthenticateMethod = some f → f r.HTTP = none →
      opts.UnauthorizedMethod = none →
      (opts.MaxBodyLength = 0 ∨
        goParseUint64 (headerGet r.HTTP.Headers "Content-Length")
          ≤ opts.MaxBodyLength) →
      (apiPreHandle env h opts ResponseWriter.empty r).writer.body
        = [Chunk.errObj ⟨401, "Unauthorized"⟩] ∧
      (apiPreHandle env h opts ResponseWriter.empty r).writer.effectiveStatus
        = 401) ∧
    (0 < opts.MaxBodyLength →
      opts.MaxBodyLength < goParseUint64 (headerGet r.HTTP.Headers "Content-Length") →
      (apiPreHandle env h opts ResponseWriter.empty r).writer.body = [] ∧
      (apiPreHandle env h opts ResponseWriter.empty r).writer.effectiveStatus
        = 413 ∧
      (apiPreHandle env h opts ResponseWriter.empty r).handlerCall = none) := by
  constructor
  · intro f hf hfnil hu hbody
    obtain ⟨tr, heq, -⟩ := apiPreHandle_reaches_auth env h opts r hlim hpre hbody
    rw [heq]
    unfold runAuth
    simp only [hf, hfnil, hu, isUserdataNil, Option.isNone_none, if_true]
    exact ⟨by trivial, by trivial⟩
  · intro hmax hov
    have hgo : ∃ tr, apiPreHandle env h opts ResponseWriter.empty r
        = runRateLimit env h opts ResponseWriter.empty r [] tr := by
      rcases hp : opts.PreHandle with _ | pre
      · exact ⟨[], by unfold apiPreHandle; simp only [hp]⟩
      · exact ⟨[Stage.preHandle], by
          unfold apiPreHandle
          simp only [hp, hpre pre hp, Option.isSome_none, Bool.false_eq_true, if_false]⟩
    obtain ⟨tr, heq⟩ := hgo
    rw [heq]
    unfold runRateLimit runBodySize
    simp only [hlim, Bool.false_eq_true, if_false, if_pos hmax, if_pos hov]
    exact ⟨by trivial, by trivial, by trivial⟩

/-- Witness for the amended C7 at the concrete oversized request: empty body,
status 413, handler never invoked. -/
theorem apiPreHandle_rejection_bodies_witness :
    (apiPreHandle sampleEnv okHandle maxLenOpts ResponseWriter.empty
      sampleReqCL50).writer.body = ([] : List (Chunk Nat)) ∧
    (apiPreHandle sampleEnv okHandle maxLenOpts ResponseWriter.empty
      sampleReqCL50).writer.effectiveStatus = 413 ∧
    (apiPreHandle sampleEnv okHandle maxLenOpts ResponseWriter.empty
      sampleReqCL50).handlerCall = none :=
  (apiPreHandle_rejection_bodies sampleEnv okHandle maxLenOpts sampleReqCL50 rfl
    (fun pre hp => by simp [maxLenOpts] at hp)).2 (by decide) (by decide)
